import Mathlib

/-!
Verification of the kindtech repository: NOMIS client (`src/kindtech/ons/api.py`),
NOMIS catalog ingester (`src/kindtech/ons/_ingestion.py`) and ArcGIS catalog
ingester (`src/kindtech/geo/_arcgis/_ingestion.py`), shallowly embedded in Lean.
External collaborators (HTTP transport, CSV parsing library) are modelled as
explicit parameters; all repository logic is transcribed from the source.
-/

namespace Kindtech

/-! ## NOMIS client (`ons/api.py`) -/

/-- An HTTP response as seen by the client: status code and body text. -/
structure HttpResponse where
  status : Nat
  text : String
deriving DecidableEq

/-- A parsed CSV table: a list of rows (pandas internals are out of scope;
only the row count and identity of the table matter to the client). -/
abbrev Table := List (List String)

/-- The failure taxonomy of `load_ons`: `raise_for_status` (HttpError),
the disguised HTML error page (InvalidDatasetError) and CSV parse
failure (CsvParseError). -/
inductive OnsError where
  | httpError (status : Nat)
  | invalidDataset (msg : String)
  | csvParseError (msg : String)
deriving DecidableEq

/-- Python `str.strip()`: remove leading and trailing whitespace. -/
def pyStrip (s : String) : String :=
  String.mk (((s.data.dropWhile Char.isWhitespace).reverse.dropWhile Char.isWhitespace).reverse)

/-- Python `str.startswith(pre)`. -/
def beginsWith (pre s : String) : Bool :=
  pre.data.isPrefixOf s.data

/-- Whether `needle` occurs as a contiguous substring of `hay` (used only to
state that error/warning texts mention particular phrases). -/
def listHasInfix : List Char → List Char → Bool
  | n, [] => n.isEmpty
  | n, c :: rest => n.isPrefixOf (c :: rest) || listHasInfix n rest

/-- Substring occurrence on strings. -/
def mentions (needle hay : String) : Bool :=
  listHasInfix needle.data hay.data

/-- The truncation warning text printed by `load_ons` when the table has
exactly 25,000 rows (apostrophes written as \x27 escapes). -/
def truncation_warning : String :=
  "Warning: Query has been truncated to 25,000 rows - providing a NOMIS UID " ++
  "(i.e. uid = \x270x...\x27) will return the full table. See \x27API Key, your " ++
  "Unique ID and Signatures\x27 section at " ++
  "https://www.nomisweb.co.uk/api/v01/help for further details"

/-- The error message raised when the body is an HTML error page. -/
def invalid_dataset_msg : String :=
  "NOMIS ID does not exist. Use list_tables() for full list of IDs"

/-- A value passed as a keyword argument to `build_url_query_string`:
either a scalar (rendered by `str`) or a list/tuple of items. -/
inductive ParamValue where
  | scalar (v : String)
  | seq (items : List String)
deriving DecidableEq

/-- `build_url_query_string` from `ons/api.py`: the loop accumulates
`query_parts` in mapping iteration order, then joins with `&` after a `?`;
an empty mapping yields the empty string. -/
def build_url_query_string (kwargs : List (String × ParamValue)) : String :=
  if kwargs.isEmpty then ""
  else
    let query_parts := kwargs.foldl (fun acc kv =>
      match kv.2 with
      | ParamValue.seq items => acc ++ items.map (fun item => kv.1 ++ "=" ++ item)
      | ParamValue.scalar v => acc ++ [kv.1 ++ "=" ++ v]) []
    "?" ++ String.intercalate "&" query_parts

/-- The per-entry expansion of a keyword argument into `key=value` tokens,
used to state the specification of `build_url_query_string`. -/
def paramPairs (kv : String × ParamValue) : List String :=
  match kv.2 with
  | ParamValue.seq items => items.map (fun item => kv.1 ++ "=" ++ item)
  | ParamValue.scalar v => [kv.1 ++ "=" ++ v]

/-- `load_ons` from `ons/api.py`, after the URL is built: the HTTP response is
a parameter, as is the external CSV parser (`pd.read_csv`).  It checks the
status (`raise_for_status`), then the HTML error-page marker, then parses the
CSV, and returns the table together with the list of warnings it printed. -/
def load_ons (parse_csv : String → Except String Table) (response : HttpResponse) :
    Except OnsError (Table × List String) :=
  if 400 ≤ response.status ∧ response.status ≤ 599 then
    Except.error (OnsError.httpError response.status)
  else if beginsWith "<!DOCTYPE html>" (pyStrip response.text) then
    Except.error (OnsError.invalidDataset invalid_dataset_msg)
  else
    match parse_csv response.text with
    | Except.error e => Except.error (OnsError.csvParseError ("Failed to parse CSV data: " ++ e))
    | Except.ok nomis_table =>
        Except.ok (nomis_table,
          if nomis_table.length = 25000 then [truncation_warning] else [])

theorem foldl_append_parts (l : List (String × ParamValue)) (init : List String) :
    l.foldl (fun acc kv =>
      match kv.2 with
      | ParamValue.seq items => acc ++ items.map (fun item => kv.1 ++ "=" ++ item)
      | ParamValue.scalar v => acc ++ [kv.1 ++ "=" ++ v]) init
    = init ++ l.flatMap paramPairs := by
  induction l generalizing init with
  | nil => simp
  | cons kv rest ih =>
      cases h : kv.2 with
      | scalar v => simp [List.foldl_cons, h, ih, paramPairs, List.flatMap_cons]
      | seq items => simp [List.foldl_cons, h, ih, paramPairs, List.flatMap_cons]

/-- C6: `build_url_query_string` maps the empty mapping to `""`; every
non-empty mapping yields `"?"` followed by the `&`-join of the per-key
`key=value` expansions, in mapping iteration order, with sequence values
expanded one pair per element in sequence order and values passed verbatim
(no URL-encoding). -/
theorem build_url_query_string_spec (kwargs : List (String × ParamValue))
    (h : kwargs ≠ []) :
    build_url_query_string [] = "" ∧
    build_url_query_string kwargs =
      "?" ++ String.intercalate "&" (kwargs.flatMap paramPairs) := by
  constructor
  · rfl
  · unfold build_url_query_string
    rw [if_neg (by simpa using h)]
    rw [foldl_append_parts kwargs []]
    simp

/-- Witness for C6 at a concrete mapping with one sequence-valued and one
scalar-valued parameter. -/
theorem build_url_query_string_spec_witness :
    build_url_query_string
      [("select", ParamValue.seq ["geography_name", "obs_value"]),
       ("time", ParamValue.scalar "latest")]
      = "?select=geography_name&select=obs_value&time=latest" := by
  have h := build_url_query_string_spec
    [("select", ParamValue.seq ["geography_name", "obs_value"]),
     ("time", ParamValue.scalar "latest")] (by decide)
  exact h.2.trans (by rfl)

/-- C4: when the status is not an error, the body is not the HTML error page
and the CSV parser succeeds with table `t`, `load_ons` returns `t` itself (no
rows dropped) and emits the truncation warning exactly when `t` has 25,000
rows; the warning text mentions the NOMIS UID that lifts the limit. -/
theorem load_ons_truncation (parse_csv : String → Except String Table)
    (response : HttpResponse) (t : Table)
    (h1 : ¬ (400 ≤ response.status ∧ response.status ≤ 599))
    (h2 : ¬ beginsWith "<!DOCTYPE html>" (pyStrip response.text))
    (h3 : parse_csv response.text = Except.ok t) :
    load_ons parse_csv response =
      Except.ok (t, if t.length = 25000 then [truncation_warning] else []) ∧
    mentions "NOMIS UID" truncation_warning = true := by
  constructor
  · unfold load_ons
    rw [if_neg h1, if_neg (by simpa using h2), h3]
  · decide

/-- Witness for C4: a parser producing exactly 25,000 rows makes the warning
appear alongside the full table. -/
theorem load_ons_truncation_witness :
    load_ons (fun _ => Except.ok (List.replicate 25000 ([] : List String)))
        (HttpResponse.mk 200 "date,value") =
      Except.ok (List.replicate 25000 ([] : List String), [truncation_warning]) := by
  have h := load_ons_truncation
    (fun _ => Except.ok (List.replicate 25000 ([] : List String)))
    (HttpResponse.mk 200 "date,value")
    (List.replicate 25000 ([] : List String))
    (by decide) (by decide) rfl
  have h1 := h.1
  rw [List.length_replicate, if_pos rfl] at h1
  exact h1

/-- C5: on a successful status whose body text begins (after stripping) with
the HTML document marker, `load_ons` fails with the InvalidDatasetError-class
failure whose message directs the caller to `list_tables()`, and it does so
for every CSV parser — i.e. before any CSV parsing is attempted. -/
theorem load_ons_html_page (parse_csv parse_csv2 : String → Except String Table)
    (response : HttpResponse)
    (h1 : ¬ (400 ≤ response.status ∧ response.status ≤ 599))
    (h2 : beginsWith "<!DOCTYPE html>" (pyStrip response.text)) :
    load_ons parse_csv response =
      Except.error (OnsError.invalidDataset invalid_dataset_msg) ∧
    load_ons parse_csv response = load_ons parse_csv2 response ∧
    mentions "list_tables" invalid_dataset_msg = true := by
  have key : ∀ p : String → Except String Table,
      load_ons p response =
        Except.error (OnsError.invalidDataset invalid_dataset_msg) := by
    intro p
    unfold load_ons
    rw [if_neg h1, if_pos (by simpa using h2)]
  exact ⟨key parse_csv, (key parse_csv).trans (key parse_csv2).symm, by decide⟩

/-- Witness for C5 at a concrete HTML body, with a parser that would succeed
and a parser that would fail: both give the same InvalidDatasetError. -/
theorem load_ons_html_page_witness :
    load_ons (fun _ => Except.ok ([] : Table))
        (HttpResponse.mk 200 "<!DOCTYPE html><html></html>") =
      Except.error (OnsError.invalidDataset invalid_dataset_msg) := by
  exact (load_ons_html_page (fun _ => Except.ok ([] : Table))
    (fun _ => Except.error "boom")
    (HttpResponse.mk 200 "<!DOCTYPE html><html></html>")
    (by decide) (by decide)).1

/-! ## NOMIS catalog ingester (`ons/_ingestion.py`)

The overview endpoint returns decoded JSON; the extraction code walks it with
`in` guards, subscripts, `.get` defaults and `isinstance` checks, all inside a
`try` block.  We model JSON values and give each Python operation its exact
semantics, with `Except String` playing the role of raised exceptions. -/

/-- A decoded JSON value (`response.json()`). -/
inductive Json where
  | null : Json
  | str (s : String) : Json
  | num (n : Int) : Json
  | arr (items : List Json) : Json
  | obj (fields : List (String × Json)) : Json

mutual

/-- Structural equality of JSON values (Python `==` / `!=`). -/
def Json.beq : Json → Json → Bool
  | Json.null, Json.null => true
  | Json.str a, Json.str b => a == b
  | Json.num a, Json.num b => a == b
  | Json.arr xs, Json.arr ys => Json.beqList xs ys
  | Json.obj fs, Json.obj gs => Json.beqFields fs gs
  | _, _ => false

/-- Structural equality of JSON lists. -/
def Json.beqList : List Json → List Json → Bool
  | [], [] => true
  | x :: xs, y :: ys => Json.beq x y && Json.beqList xs ys
  | _, _ => false

/-- Structural equality of JSON object field lists. -/
def Json.beqFields : List (String × Json) → List (String × Json) → Bool
  | [], [] => true
  | f :: fs, g :: gs => (f.1 == g.1) && Json.beq f.2 g.2 && Json.beqFields fs gs
  | _, _ => false

end

instance : BEq Json := ⟨Json.beq⟩

/-- Python `k in v`: key membership for dicts, element membership for lists,
substring test for strings; TypeError otherwise. -/
def Json.hasKey : Json → String → Except String Bool
  | Json.obj fs, k => Except.ok (fs.any (fun f => f.1 == k))
  | Json.arr xs, k => Except.ok (xs.any (fun j => j == Json.str k))
  | Json.str s, k => Except.ok (listHasInfix k.data s.data)
  | _, _ => Except.error "TypeError: argument is not iterable"

/-- Python `v[k]` with a string key: dict lookup (KeyError when absent),
TypeError on any other value. -/
def Json.index : Json → String → Except String Json
  | Json.obj fs, k =>
      match fs.find? (fun f => f.1 == k) with
      | some f => Except.ok f.2
      | none => Except.error "KeyError"
  | _, _ => Except.error "TypeError: indices must be integers"

/-- Python `v[0]`: first element of a list, IndexError when empty. -/
def Json.item0 : Json → Except String Json
  | Json.arr (a :: _) => Except.ok a
  | Json.arr [] => Except.error "IndexError: list index out of range"
  | _ => Except.error "TypeError: indices must be integers"

/-- Python `for x in v`: lists yield elements, dicts their keys, strings their
characters; TypeError otherwise. -/
def Json.iterate : Json → Except String (List Json)
  | Json.arr xs => Except.ok xs
  | Json.obj fs => Except.ok (fs.map (fun f => Json.str f.1))
  | Json.str s => Except.ok (s.data.map (fun c => Json.str (String.singleton c)))
  | _ => Except.error "TypeError: not iterable"

/-- Python `isinstance(v, list)`. -/
def Json.isArr : Json → Bool
  | Json.arr _ => true
  | _ => false

/-- Python `isinstance(v, dict)`. -/
def Json.isObj : Json → Bool
  | Json.obj _ => true
  | _ => false

/-- The elements of a JSON list (callers establish `isArr` first). -/
def Json.asArr : Json → List Json
  | Json.arr xs => xs
  | _ => []

/-- Python `d.get(k)` on a dict: `some` value or `none`; `none` on non-dicts,
which the source never reaches (it checks `isinstance(_, dict)` first). -/
def Json.objGet : Json → String → Option Json
  | Json.obj fs, k => (fs.find? (fun f => f.1 == k)).map (fun f => f.2)
  | _, _ => none

/-- Python `d.get(k, default)` on a dict; the non-dict branch is unreachable
in the source (a subscript by string key succeeded just before). -/
def Json.dictGet : Json → String → Json → Json
  | Json.obj fs, k, d =>
      match fs.find? (fun f => f.1 == k) with
      | some f => f.2
      | none => d
  | _, _, d => d

/-- Python truthiness of a JSON value (`if not source_name`). -/
def Json.truthy : Json → Bool
  | Json.null => false
  | Json.str s => s != ""
  | Json.num n => n != 0
  | Json.arr xs => !xs.isEmpty
  | Json.obj fs => !fs.isEmpty

/-- A chained guard `k1 in x and k2 in x[k1] and ...` as it appears in
`extract_data_source`: each later membership test subscripts the previous
value, short-circuiting on the first `False`. -/
def hasPath : Json → List String → Except String Bool
  | _, [] => Except.ok true
  | x, k :: ks =>
      match x.hasKey k with
      | Except.error e => Except.error e
      | Except.ok b =>
          if b then
            match ks with
            | [] => Except.ok true
            | _ :: _ =>
                match x.index k with
                | Except.error e => Except.error e
                | Except.ok v => hasPath v ks
          else Except.ok false

/-- A chain of subscripts `x[k1][k2]...`. -/
def getPath : Json → List String → Except String Json
  | x, [] => Except.ok x
  | x, k :: ks =>
      match x.index k with
      | Except.error e => Except.error e
      | Except.ok v => getPath v ks

/-- A row of `list_tables`: dataset id and name. -/
structure Dataset where
  id : String
  name : String
deriving DecidableEq

/-- A row of `extract_data_source`: `{"sourceName": ..., "id": ...}`. -/
structure SourceRow where
  sourceName : Json
  id : String

/-- Path 1 of the fallback chain in `extract_data_source`: the annotation
titled `"contenttype/sources"` on the first key-family entry.  Mirrors the
source line by line: the guarded `in`/`isinstance` chain, the `[0]` subscript
(which raises IndexError on an empty key-family list), and the first-match
loop over the annotation list with its `.get` calls. -/
def path_one_source (x : Json) : Except String Json :=
  match hasPath x ["structure", "keyfamilies", "keyfamily"] with
  | Except.error e => Except.error e
  | Except.ok g1 =>
      if g1 then
        match getPath x ["structure", "keyfamilies", "keyfamily"] with
        | Except.error e => Except.error e
        | Except.ok kfl =>
            if kfl.isArr then
              match kfl.item0 with
              | Except.error e => Except.error e
              | Except.ok keyfamily =>
                  match hasPath keyfamily ["annotations", "annotation"] with
                  | Except.error e => Except.error e
                  | Except.ok g2 =>
                      if g2 then
                        match getPath keyfamily ["annotations", "annotation"] with
                        | Except.error e => Except.error e
                        | Except.ok annl =>
                            if annl.isArr then
                              match annl.asArr.find? (fun a =>
                                  a.isObj && (a.objGet "annotationtitle"
                                    == some (Json.str "contenttype/sources"))) with
                              | some ann =>
                                  Except.ok (ann.dictGet "annotationtext" (Json.str ""))
                              | none => Except.ok (Json.str "")
                            else Except.ok (Json.str "")
                      else Except.ok (Json.str "")
            else Except.ok (Json.str "")
      else Except.ok (Json.str "")

/-- The full fallback chain for one overview document: path 1, then — when
the result is falsy — the guarded sender contact-name fallback (path 2). -/
def extract_source_name (x : Json) : Except String Json :=
  match path_one_source x with
  | Except.error e => Except.error e
  | Except.ok sn1 =>
      if sn1.truthy then Except.ok sn1
      else
        match hasPath x ["structure", "header", "sender", "contact", "name"] with
        | Except.error e => Except.error e
        | Except.ok g3 =>
            if g3 then getPath x ["structure", "header", "sender", "contact", "name"]
            else Except.ok sn1

/-- The body of the per-dataset loop in `extract_data_source`: the whole of
`get_overview` plus extraction runs inside `try`, and any exception is
downgraded to an empty-string source name. -/
def extract_one_source (get_overview : String → Except String Json)
    (dataset_id : String) : Json :=
  match get_overview dataset_id with
  | Except.error _ => Json.str ""
  | Except.ok x =>
      match extract_source_name x with
      | Except.error _ => Json.str ""
      | Except.ok sn => sn

/-- `extract_data_source` from `ons/_ingestion.py`, with the result of
`list_tables` and the `get_overview` lookup as parameters: it first filters
out the two hardcoded ids, then accumulates one `{"sourceName", "id"}` row per
remaining id. -/
def extract_data_source (nomis_tables : List Dataset)
    (get_overview : String → Except String Json) : List SourceRow :=
  (nomis_tables.filter (fun t => t.id != "NM_45_1" && t.id != "NM_2064_1")).map
    (fun t => SourceRow.mk (extract_one_source get_overview t.id) t.id)

/-- A row of the combined catalog: dataset id, name, and the left-joined
source (`none` when no source row matched the id). -/
structure MergedRow where
  id : String
  name : String
  sourceName : Option Json

/-- One left row of `pandas.merge(..., on="id", how="left")`: paired with
each matching right row in order, or with a null source when none matches. -/
def merge_row (right : List SourceRow) (t : Dataset) : List MergedRow :=
  match right.filter (fun s => s.id == t.id) with
  | [] => [MergedRow.mk t.id t.name none]
  | m :: ms => (m :: ms).map (fun s => MergedRow.mk t.id t.name (some s.sourceName))

/-- `pandas.merge(..., on="id", how="left")`: every left row appears. -/
def merge_left_on_id (left : List Dataset) (right : List SourceRow) : List MergedRow :=
  left.flatMap (merge_row right)

/-- `create_nomis_tables_dataset` from `ons/_ingestion.py`: left join of the
dataset list with the extracted sources on `id` (both derived from the same
`list_tables` result, modelled as the same `nomis_tables` parameter). -/
def create_nomis_tables_dataset (nomis_tables : List Dataset)
    (get_overview : String → Except String Json) : List MergedRow :=
  merge_left_on_id nomis_tables (extract_data_source nomis_tables get_overview)

/-- A row of `list_data_sources`. -/
structure DataSource where
  source_name : Json
  source_id : Json
  source_description : Json

/-- The census branch of `list_data_sources`: one descriptor per nested
sub-item, with the `"No Description"` default. -/
def census_sub_sources : List Json → Except String (List DataSource)
  | [] => Except.ok []
  | c :: cs =>
      match c.index "name" with
      | Except.error e => Except.error e
      | Except.ok cname =>
          match c.index "id" with
          | Except.error e => Except.error e
          | Except.ok cid =>
              match census_sub_sources cs with
              | Except.error e => Except.error e
              | Except.ok tail =>
                  Except.ok (DataSource.mk cname cid
                    (c.dictGet "description" (Json.str "No Description")) :: tail)

/-- The descriptors contributed by one item of `contenttype.item[]`: one
descriptor for a non-census item, the flattened sub-items for the census
item (which itself never contributes a descriptor). -/
def item_sources (item : Json) : Except String (List DataSource) :=
  match item.index "id" with
  | Except.error e => Except.error e
  | Except.ok idv =>
      if idv != Json.str "census" then
        match item.index "name" with
        | Except.error e => Except.error e
        | Except.ok namev =>
            Except.ok [DataSource.mk namev idv (item.dictGet "description" (Json.str ""))]
      else
        match item.index "item" with
        | Except.error e => Except.error e
        | Except.ok subsJ =>
            match subsJ.iterate with
            | Except.error e => Except.error e
            | Except.ok subs => census_sub_sources subs

/-- The accumulation loop of `list_data_sources` over `contenttype.item[]`. -/
def sources_of_items : List Json → Except String (List DataSource)
  | [] => Except.ok []
  | item :: rest =>
      match item_sources item with
      | Except.error e => Except.error e
      | Except.ok here =>
          match sources_of_items rest with
          | Except.error e => Except.error e
          | Except.ok tail => Except.ok (here ++ tail)

/-- `list_data_sources` from `ons/_ingestion.py`, with the decoded JSON of
the sources endpoint as parameter. -/
def list_data_sources (data : Json) : Except String (List DataSource) :=
  match data.index "contenttype" with
  | Except.error e => Except.error e
  | Except.ok ct =>
      match ct.index "item" with
      | Except.error e => Except.error e
      | Except.ok itemsJ =>
          match itemsJ.iterate with
          | Except.error e => Except.error e
          | Except.ok items => sources_of_items items

/-- A minimal overview document of the shape the source-annotation extraction
walks: one key-family carrying the given annotation list, and a sender
contact name in the header. -/
def mkOverview (anns : List Json) (contactName : String) : Json :=
  Json.obj
    [("structure", Json.obj
      [("keyfamilies", Json.obj
        [("keyfamily", Json.arr
          [Json.obj [("annotations", Json.obj [("annotation", Json.arr anns)])]])]),
       ("header", Json.obj
        [("sender", Json.obj
          [("contact", Json.obj [("name", Json.str contactName)])])])])]

/-! ### Theorems about the NOMIS catalog ingester -/

/-- C2 counterexample: a dataset list consisting of the hardcoded id
`"NM_45_1"` whose overview lookup raises yields an empty result — the
identifier is dropped rather than kept with an empty source name. -/
theorem extract_data_source_drops_hardcoded_id :
    extract_data_source [Dataset.mk "NM_45_1" "Workforce jobs by industry"]
      (fun _ => Except.error "network failure") = [] := by rfl

/-- C2 (amended): for every dataset list and every overview lookup,
`extract_data_source` never raises (it is total) and its result has exactly
one row per dataset whose id is not one of the two hardcoded exclusions; each
non-excluded dataset contributes its own row, a non-excluded identifier whose
lookup raises still appears with sourceName equal to the empty string (no
matter what the other lookups do), and the excluded identifiers `"NM_45_1"`
and `"NM_2064_1"` never appear in the result. -/
theorem extract_data_source_swallows_errors (tables : List Dataset)
    (g : String → Except String Json) (t : Dataset) (ht : t ∈ tables) :
    (extract_data_source tables g).length =
      (tables.filter (fun x => x.id != "NM_45_1" && x.id != "NM_2064_1")).length ∧
    (t.id ≠ "NM_45_1" → t.id ≠ "NM_2064_1" →
      SourceRow.mk (extract_one_source g t.id) t.id ∈ extract_data_source tables g) ∧
    (t.id ≠ "NM_45_1" → t.id ≠ "NM_2064_1" → ∀ e, g t.id = Except.error e →
      SourceRow.mk (Json.str "") t.id ∈ extract_data_source tables g) ∧
    ((t.id = "NM_45_1" ∨ t.id = "NM_2064_1") →
      ∀ r ∈ extract_data_source tables g, r.id ≠ t.id) := by
  have hmem : ∀ (h1 : t.id ≠ "NM_45_1") (h2 : t.id ≠ "NM_2064_1"),
      t ∈ tables.filter (fun x => x.id != "NM_45_1" && x.id != "NM_2064_1") := by
    intro h1 h2
    apply List.mem_filter.mpr
    refine ⟨ht, ?_⟩
    simp only [Bool.and_eq_true, bne_iff_ne, ne_eq]
    exact ⟨h1, h2⟩
  refine ⟨?_, ?_, ?_, ?_⟩
  · simp [extract_data_source]
  · intro h1 h2
    exact List.mem_map_of_mem _ (hmem h1 h2)
  · intro h1 h2 e he
    have hone : extract_one_source g t.id = Json.str "" := by
      simp [extract_one_source, he]
    have hin : SourceRow.mk (extract_one_source g t.id) t.id ∈
        (tables.filter (fun x => x.id != "NM_45_1" && x.id != "NM_2064_1")).map
          (fun x => SourceRow.mk (extract_one_source g x.id) x.id) :=
      List.mem_map_of_mem _ (hmem h1 h2)
    rw [hone] at hin
    exact hin
  · intro hex r hr hid
    have hr2 : r ∈ (tables.filter (fun x => x.id != "NM_45_1" && x.id != "NM_2064_1")).map
        (fun x => SourceRow.mk (extract_one_source g x.id) x.id) := hr
    rcases List.mem_map.mp hr2 with ⟨x, hx, hfx⟩
    have hxf := (List.mem_filter.mp hx).2
    simp only [Bool.and_eq_true, bne_iff_ne, ne_eq] at hxf
    have hrx : r.id = x.id := by rw [← hfx]
    rcases hex with h45 | h64
    · exact hxf.1 (hrx.symm.trans (hid.trans h45))
    · exact hxf.2 (hrx.symm.trans (hid.trans h64))

/-- Witness for C2 (amended): a list containing the excluded `"NM_45_1"`, an
id whose lookup raises, and an id whose lookup succeeds: the raising id keeps
its row with an empty source name. -/
theorem extract_data_source_swallows_errors_witness :
    SourceRow.mk (Json.str "") "NM_1_1" ∈
      extract_data_source
        [Dataset.mk "NM_45_1" "A", Dataset.mk "NM_1_1" "B", Dataset.mk "NM_2_1" "C"]
        (fun i => if i = "NM_1_1" then Except.error "boom"
                  else Except.ok (mkOverview [] "Office for National Statistics")) :=
  (extract_data_source_swallows_errors
    [Dataset.mk "NM_45_1" "A", Dataset.mk "NM_1_1" "B", Dataset.mk "NM_2_1" "C"]
    (fun i => if i = "NM_1_1" then Except.error "boom"
              else Except.ok (mkOverview [] "Office for National Statistics"))
    (Dataset.mk "NM_1_1" "B") (by decide)).2.2.1
    (by decide) (by decide) "boom" rfl

/-- Every row of the left table survives a left merge: it yields a row with
its id and name, and a null source when no right row matches its id. -/
theorem merge_left_keeps (left : List Dataset) (right : List SourceRow)
    (t : Dataset) (ht : t ∈ left) :
    (∃ r ∈ merge_left_on_id left right, r.id = t.id ∧ r.name = t.name) ∧
    ((∀ s ∈ right, s.id ≠ t.id) →
      MergedRow.mk t.id t.name none ∈ merge_left_on_id left right) := by
  constructor
  · cases h : right.filter (fun s => s.id == t.id) with
    | nil =>
        refine ⟨MergedRow.mk t.id t.name none, ?_, rfl, rfl⟩
        apply List.mem_flatMap.mpr
        refine ⟨t, ht, ?_⟩
        unfold merge_row
        rw [h]
        exact List.mem_singleton.mpr rfl
    | cons m ms =>
        refine ⟨MergedRow.mk t.id t.name (some m.sourceName), ?_, rfl, rfl⟩
        apply List.mem_flatMap.mpr
        refine ⟨t, ht, ?_⟩
        unfold merge_row
        rw [h]
        exact List.mem_map.mpr ⟨m, List.mem_cons_self m ms, rfl⟩
  · intro hnone
    have h : right.filter (fun s => s.id == t.id) = [] := by
      rw [List.filter_eq_nil_iff]
      intro s hs
      simp only [beq_iff_eq]
      exact hnone s hs
    apply List.mem_flatMap.mpr
    refine ⟨t, ht, ?_⟩
    unfold merge_row
    rw [h]
    exact List.mem_singleton.mpr rfl

/-- C3: `create_nomis_tables_dataset` preserves every row of the dataset
list: each dataset yields a combined row with its id and name, and a dataset
whose id matches no source-annotation row (for instance because source
extraction dropped or failed it) gets a null source rather than being
dropped. -/
theorem create_nomis_tables_dataset_preserves (tables : List Dataset)
    (g : String → Except String Json) (t : Dataset) (ht : t ∈ tables) :
    (∃ r ∈ create_nomis_tables_dataset tables g, r.id = t.id ∧ r.name = t.name) ∧
    ((∀ s ∈ extract_data_source tables g, s.id ≠ t.id) →
      MergedRow.mk t.id t.name none ∈ create_nomis_tables_dataset tables g) :=
  merge_left_keeps tables (extract_data_source tables g) t ht

/-- Witness for C3: the id `"NM_45_1"` is dropped by source extraction, yet
its dataset row survives the join with a null source. -/
theorem create_nomis_tables_dataset_preserves_witness :
    MergedRow.mk "NM_45_1" "Workforce jobs by industry" none ∈
      create_nomis_tables_dataset [Dataset.mk "NM_45_1" "Workforce jobs by industry"]
        (fun _ => Except.error "down") := by
  have h := create_nomis_tables_dataset_preserves
    [Dataset.mk "NM_45_1" "Workforce jobs by industry"] (fun _ => Except.error "down")
    (Dataset.mk "NM_45_1" "Workforce jobs by industry") (List.mem_singleton.mpr rfl)
  apply h.2
  intro s hs
  have he : extract_data_source [Dataset.mk "NM_45_1" "Workforce jobs by industry"]
      (fun _ => Except.error "down") = [] := rfl
  rw [he] at hs
  cases hs

/-- C10: an annotation titled `"contenttype/sources"` whose text is the empty
string — or missing altogether — does not count as a path-1 success: the
sender contact-name fallback still runs, so the contact name overrides the
present-but-empty source annotation. -/
theorem empty_source_annotation_falls_back (cn : String) :
    extract_source_name (mkOverview
      [Json.obj [("annotationtitle", Json.str "contenttype/sources"),
                 ("annotationtext", Json.str "")]] cn) = Except.ok (Json.str cn) ∧
    extract_source_name (mkOverview
      [Json.obj [("annotationtitle", Json.str "contenttype/sources")]] cn) =
      Except.ok (Json.str cn) :=
  ⟨rfl, rfl⟩

/-- A non-census item of `contenttype.item[]`. -/
def mkItem (id name desc : String) : Json :=
  Json.obj [("name", Json.str name), ("id", Json.str id), ("description", Json.str desc)]

/-- A census sub-item (no description, so the default applies). -/
def mkSubItem (id name : String) : Json :=
  Json.obj [("name", Json.str name), ("id", Json.str id)]

/-- The census item, with its nested `item[]` list. -/
def mkCensusBlock (subs : List Json) : Json :=
  Json.obj [("id", Json.str "census"), ("item", Json.arr subs)]

/-- The decoded body of the sources endpoint. -/
def mkSourcesDoc (items : List Json) : Json :=
  Json.obj [("contenttype", Json.obj [("item", Json.arr items)])]

theorem json_bne_str (a b : String) : (Json.str a != Json.str b) = !(a == b) := rfl

/-- C8: `list_data_sources` flattens the census category asymmetrically —
one non-census item plus one census item with two sub-items yield exactly
three descriptors, in order, the census item itself contributing none, and
`"census"` never appears as a `source_id`. -/
theorem list_data_sources_census_flattening
    (id1 n1 d1 i1 cn1 i2 cn2 : String)
    (h1 : id1 ≠ "census") (h2 : i1 ≠ "census") (h3 : i2 ≠ "census") :
    list_data_sources (mkSourcesDoc
      [mkItem id1 n1 d1, mkCensusBlock [mkSubItem i1 cn1, mkSubItem i2 cn2]]) =
      Except.ok
        [DataSource.mk (Json.str n1) (Json.str id1) (Json.str d1),
         DataSource.mk (Json.str cn1) (Json.str i1) (Json.str "No Description"),
         DataSource.mk (Json.str cn2) (Json.str i2) (Json.str "No Description")] ∧
    ([DataSource.mk (Json.str n1) (Json.str id1) (Json.str d1),
      DataSource.mk (Json.str cn1) (Json.str i1) (Json.str "No Description"),
      DataSource.mk (Json.str cn2) (Json.str i2) (Json.str "No Description")].length = 3) ∧
    Json.str "census" ∉
      [DataSource.mk (Json.str n1) (Json.str id1) (Json.str d1),
       DataSource.mk (Json.str cn1) (Json.str i1) (Json.str "No Description"),
       DataSource.mk (Json.str cn2) (Json.str i2) (Json.str "No Description")].map
        (fun s => s.source_id) := by
  have e1 : (id1 == "census") = false := beq_eq_false_iff_ne.mpr h1
  refine ⟨?_, rfl, ?_⟩
  · simp [list_data_sources, mkSourcesDoc, mkItem, mkCensusBlock, mkSubItem,
      Json.index, Json.iterate, sources_of_items, item_sources, census_sub_sources,
      Json.dictGet, json_bne_str, e1, Json.beq]
  · intro hmem
    simp only [List.map_cons, List.map_nil, List.mem_cons, List.not_mem_nil,
      Json.str.injEq, or_false] at hmem
    rcases hmem with h | h | h
    · exact h1 h.symm
    · exact h2 h.symm
    · exact h3 h.symm

/-- Witness for C8 at concrete item names and ids. -/
theorem list_data_sources_census_flattening_witness :
    list_data_sources (mkSourcesDoc
      [mkItem "jsa" "Jobseekers Allowance" "claimant counts",
       mkCensusBlock [mkSubItem "c2011" "Census 2011", mkSubItem "c2021" "Census 2021"]]) =
      Except.ok
        [DataSource.mk (Json.str "Jobseekers Allowance") (Json.str "jsa")
           (Json.str "claimant counts"),
         DataSource.mk (Json.str "Census 2011") (Json.str "c2011")
           (Json.str "No Description"),
         DataSource.mk (Json.str "Census 2021") (Json.str "c2021")
           (Json.str "No Description")] :=
  (list_data_sources_census_flattening "jsa" "Jobseekers Allowance" "claimant counts"
    "c2011" "Census 2011" "c2021" "Census 2021"
    (by decide) (by decide) (by decide)).1

/-! ## ArcGIS catalog ingester (`geo/_arcgis/_ingestion.py`)

`_process_and_save` filters candidate identifiers through one case-insensitive
verbose regex and extracts its four capture groups.  The regex is embedded as
a backtracking matcher transcribing the pattern construct by construct with
leftmost-first (lazy/greedy/alternation-order) preference, the semantics the
polars/Rust regex engine gives it.  `.` never matches a newline; `(?i)[A-Z]`
is any ASCII letter; `\d` is a decimal digit (all candidates are ASCII). -/

/-- Captures of a successful match: month (optional group 1), year (group 2),
region (group 3), resolution (group 4), as matched substrings. -/
abbrev Caps := Option String × String × String × String

/-- Match a case-insensitive literal (given uppercase), returning the
consumed original characters and the remainder. -/
def eatLitC : List Char → List Char → Option (List Char × List Char)
  | [], cs => some ([], cs)
  | _ :: _, [] => none
  | l :: ls, c :: cs =>
      if c.toUpper = l then
        match eatLitC ls cs with
        | some (tok, rest) => some (c :: tok, rest)
        | none => none
      else none

/-- One copy of the noise segment `(?:[A-Z]+_)`: a maximal nonempty ASCII
letter run followed by `_` (any shorter run would have to be followed by a
letter, not `_`, so the maximal run is the only viable one). -/
def eatNoise (cs : List Char) : Option (List Char) :=
  let letters := cs.takeWhile (fun c => c.isAlpha)
  if letters.isEmpty then none
  else
    match cs.drop letters.length with
    | '_' :: rest => some rest
    | _ => none

/-- The trailing `(?:_.*)?$`: either at end of input, or a `_` followed by
newline-free text to the end. -/
def suffixOk : List Char → Bool
  | [] => true
  | '_' :: rest => rest.all (fun c => c != '\n')
  | _ => false

/-- The resolution alternation `(?P<res>BFC|BFE|BGC|BSC)` followed by the
suffix, tried in pattern order. -/
def tryRes (month : Option String) (year region : String) :
    List String → List Char → Option Caps
  | [], _ => none
  | t :: ts, cs =>
      (match eatLitC t.data cs with
       | some (tok, rest) =>
           if suffixOk rest then some (month, year, region, String.mk tok)
           else none
       | none => none)
      <|> tryRes month year region ts cs

/-- The resolution tokens, in pattern order. -/
def resTokens : List String := ["BFC", "BFE", "BGC", "BSC"]

/-- The lazy noise loop before the resolution: try the resolution here first,
then consume one noise copy and retry (fuel bounds the shrinking input). -/
def afterRegion (month : Option String) (year region : String) :
    Nat → List Char → Option Caps
  | 0, _ => none
  | fuel + 1, cs =>
      tryRes month year region resTokens cs <|>
      (match eatNoise cs with
       | some rest => afterRegion month year region fuel rest
       | none => none)

/-- The region alternation `(?P<region>UK|GB|EW)_`, tried in pattern order,
each followed by the rest of the pattern. -/
def tryRegionTok (month : Option String) (year : String) :
    List String → List Char → Option Caps
  | [], _ => none
  | t :: ts, cs =>
      (match eatLitC t.data cs with
       | some (tok, rest) =>
           match rest with
           | '_' :: rest2 => afterRegion month year (String.mk tok) (rest2.length + 1) rest2
           | _ => none
       | none => none)
      <|> tryRegionTok month year ts cs

/-- The region tokens, in pattern order. -/
def regionTokens : List String := ["UK", "GB", "EW"]

/-- The lazy noise loop before the region: try the region here first, then
consume one noise copy and retry. -/
def findRegion (month : Option String) (year : String) :
    Nat → List Char → Option Caps
  | 0, _ => none
  | fuel + 1, cs =>
      tryRegionTok month year regionTokens cs <|>
      (match eatNoise cs with
       | some rest => findRegion month year fuel rest
       | none => none)

/-- Entry to the part after the year's `_`. -/
def afterYear (month : Option String) (year : String) (cs : List Char) : Option Caps :=
  findRegion month year (cs.length + 1) cs

/-- `(?P<year>\d{2}(?:\d{2})?)_`: greedily two more digits, backtracking to
the two-digit form when the four-digit continuation fails. -/
def matchYear (month : Option String) (cs : List Char) : Option Caps :=
  match cs with
  | a :: b :: rest =>
      if a.isDigit && b.isDigit then
        (match rest with
         | c :: d :: rest2 =>
             if c.isDigit && d.isDigit then
               match rest2 with
               | '_' :: rest3 => afterYear month (String.mk [a, b, c, d]) rest3
               | _ => none
             else none
         | _ => none)
        <|>
        (match rest with
         | '_' :: rest3 => afterYear month (String.mk [a, b]) rest3
         | _ => none)
      else none
  | _ => none

/-- One month alternative `XXX(?:SUFFIX)?` followed by `_`: the long form is
greedy and tried (with its whole continuation) before the short form. -/
def tryMonthAlt (short suf : String) (cs : List Char) : Option Caps :=
  (match eatLitC (short ++ suf).data cs with
   | some (tok, rest) =>
       match rest with
       | '_' :: rest2 => matchYear (some (String.mk tok)) rest2
       | _ => none
   | none => none)
  <|>
  (match eatLitC short.data cs with
   | some (tok, rest) =>
       match rest with
       | '_' :: rest2 => matchYear (some (String.mk tok)) rest2
       | _ => none
   | none => none)

/-- The month alternatives of the pattern, in order. -/
def monthAlts : List (String × String) :=
  [("JAN", "UARY"), ("FEB", "RUARY"), ("MAR", "CH"), ("APR", "IL"),
   ("MAY", ""), ("JUN", "E"), ("JUL", "Y"), ("AUG", "UST"),
   ("SEP", "TEMBER"), ("OCT", "OBER"), ("NOV", "EMBER"), ("DEC", "EMBER")]

/-- The month alternation, in pattern order. -/
def tryMonthList : List (String × String) → List Char → Option Caps
  | [], _ => none
  | (short, suf) :: rest, cs => tryMonthAlt short suf cs <|> tryMonthList rest cs

/-- The optional month group then the year: with the month (preferred, the
group is greedy) or without it. -/
def monthsOrYear (cs : List Char) : Option Caps :=
  tryMonthList monthAlts cs <|> matchYear none cs

/-- The lazy `.*?_` after the anchor prefix: prefer matching `_` right here
and continuing; otherwise let `.` consume one (non-newline) character. -/
def lazyDotToYear : List Char → Option Caps
  | [] => none
  | c :: cs =>
      (if c = '_' then monthsOrYear cs else none)
      <|> (if c != '\n' then lazyDotToYear cs else none)

/-- The whole anchored pattern applied to a candidate identifier:
`^(?:LAD|LOCAL_AUTHORITY_DISTRICTS)` then the rest. -/
def regexCaptures (s : String) : Option Caps :=
  (match eatLitC "LAD".data s.data with
   | some (_, rest) => lazyDotToYear rest
   | none => none)
  <|>
  (match eatLitC "LOCAL_AUTHORITY_DISTRICTS".data s.data with
   | some (_, rest) => lazyDotToYear rest
   | none => none)

/-- An output row of `_process_and_save`. -/
structure ArcgisRow where
  arcgis_id : String
  geography : String
  year : Int
  month : Option String
  region : String
  resolution : String
deriving DecidableEq

/-- The fixed exclusion list `to_skip` of five known-bad identifiers. -/
def to_skip : List String :=
  ["LAD_Dec_1961_in_England_and_Wales_BFC_Boundaries_2022",
   "LAD_JUN_1921_EW_BGC",
   "LAD_PT_JUN_1921_EW_BGC",
   "LAD_DEC_2021_EW_BFE_RUC",
   "LAD_DEC_2024_EW_BFE_RUC"]

/-- Decimal value of a digit string (the year token). -/
def digitsToNat (cs : List Char) : Nat :=
  cs.foldl (fun a c => 10 * a + (c.toNat - Char.toNat '0')) 0

/-- `cast(pl.Int16)`: the year value as a 16-bit signed integer (the
identity on every 2- or 4-digit year). -/
def toInt16 (n : Nat) : Int :=
  ((n + 32768) % 65536 : Nat) - 32768

/-- The fate of one candidate identifier in `_process_and_save`: dropped when
the pattern fails or the identifier is in `to_skip`, otherwise one row with
the constant geography tag and the extracted groups. -/
def classify_service (s : String) : Option ArcgisRow :=
  match regexCaptures s with
  | none => none
  | some (m, y, r, res) =>
      if s ∈ to_skip then none
      else some (ArcgisRow.mk s "LAD" (toInt16 (digitsToNat y.data)) m r res)

/-- `_process_and_save`: filter by pattern match and exclusion list, then
extract the groups into columns. -/
def process_and_save (services : List String) : List ArcgisRow :=
  services.filterMap classify_service

/-! ### Theorems about the ArcGIS classifier -/

/-- C1 counterexample: feeding `"LAD_DEC_2023_UK_BFC"` does NOT give a row
with a null month — the greedy optional month group captures `"DEC"`. -/
theorem arcgis_dec_2023_month_not_null :
    (process_and_save ["LAD_DEC_2023_UK_BFC"]).map (fun r => r.month) ≠ [none] := by
  decide

/-- C1 (amended): feeding `"LAD_DEC_2023_UK_BFC"` yields exactly one row,
with `year = 2023`, `region = "UK"`, `resolution = "BFC"` — and
`month = "DEC"` (not null: the identifier carries a month token and the
optional month group captures it). -/
theorem arcgis_dec_2023_row :
    process_and_save ["LAD_DEC_2023_UK_BFC"] =
      [ArcgisRow.mk "LAD_DEC_2023_UK_BFC" "LAD" 2023 (some "DEC") "UK" "BFC"] := by
  decide

/-- C9: the year is stored as the literal numeric value of the matched
digits cast to Int16 — a 2-digit token `"24"` becomes 24 (not 2024), a
4-digit token is stored as-is. -/
theorem arcgis_year_literal :
    process_and_save ["LAD_24_UK_BFC", "LAD_2023_GB_BSC"] =
      [ArcgisRow.mk "LAD_24_UK_BFC" "LAD" (toInt16 24) none "UK" "BFC",
       ArcgisRow.mk "LAD_2023_GB_BSC" "LAD" (toInt16 2023) none "GB" "BSC"] ∧
    toInt16 24 = 24 ∧ toInt16 2023 = 2023 := by
  refine ⟨by decide, by decide, by decide⟩

/-- C7: a candidate that fails the classification pattern or sits in the
exclusion list contributes zero output rows — it never appears as an
`arcgis_id` of any output row; in particular `"LAD_JUN_1921_EW_BGC"` (in the
exclusion list) and `"LAD_DEC_2023_BFC"` (no region token) yield zero rows. -/
theorem arcgis_excluded_never_output (services : List String) (s : String)
    (h : regexCaptures s = none ∨ s ∈ to_skip) :
    s ∉ (process_and_save services).map (fun r => r.arcgis_id) ∧
    process_and_save ["LAD_JUN_1921_EW_BGC"] = [] ∧
    process_and_save ["LAD_DEC_2023_BFC"] = [] := by
  refine ⟨?_, by decide, by decide⟩
  intro hmem
  rcases List.mem_map.mp hmem with ⟨r, hr, hid⟩
  rcases List.mem_filterMap.mp hr with ⟨a, _, hfa⟩
  have hida : r.arcgis_id = a ∧ regexCaptures a ≠ none ∧ a ∉ to_skip := by
    unfold classify_service at hfa
    cases hca : regexCaptures a with
    | none => rw [hca] at hfa; exact absurd hfa (by simp)
    | some caps =>
        obtain ⟨m, y, rg, rs⟩ := caps
        simp only [hca] at hfa
        by_cases hskip : a ∈ to_skip
        · rw [if_pos hskip] at hfa; exact absurd hfa (by simp)
        · rw [if_neg hskip] at hfa
          refine ⟨?_, by simp [hca], hskip⟩
          have heq := Option.some.inj hfa
          rw [← heq]
  have has : a = s := hida.1.symm.trans hid
  rcases h with hn | hs
  · exact hida.2.1 (has ▸ hn)
  · exact hida.2.2 (has ▸ hs)

/-- Witness for C7: the excluded identifier `"LAD_JUN_1921_EW_BGC"` never
appears in the output, even when fed alongside a valid candidate. -/
theorem arcgis_excluded_never_output_witness :
    "LAD_JUN_1921_EW_BGC" ∉
      (process_and_save ["LAD_JUN_1921_EW_BGC", "LAD_DEC_2023_UK_BFC"]).map
        (fun r => r.arcgis_id) :=
  (arcgis_excluded_never_output ["LAD_JUN_1921_EW_BGC", "LAD_DEC_2023_UK_BFC"]
    "LAD_JUN_1921_EW_BGC" (Or.inr (by decide))).1

end Kindtech
